import Mathlib

/-!
Verification of the overlap-slicing core of the `regions` package
(`regions/core/mask.py`): the `Mask` class with its `_overlap_slices`,
`to_image`, `cutout` and `multiply` operations, shallowly embedded over a
model of 2D numpy arrays with Python slice semantics (negative endpoints
count from the end of the axis; everything is clamped to the axis).
-/

set_option autoImplicit false

namespace Regions

/-- A Python `slice(start, stop)` with unit step: a pair of integers
`(start, stop)`. -/
abbrev PySlice := Int × Int

/-- The number of indices a slice selects on a sufficiently long axis when its
endpoints are already in range: `max (stop - start) 0`. -/
def PySlice.len (s : PySlice) : Int := max (s.2 - s.1) 0

/-- Modelled from the spec: `BoundingBox` (defined in
`regions/core/bounding_box.py`, which is not part of the sources) holds
integer pixel extents `ixmin, ixmax, iymin, iymax`, half-open with exclusive
max, locating a local array inside a larger frame. -/
structure BoundingBox where
  ixmin : Int
  ixmax : Int
  iymin : Int
  iymax : Int

/-- Modelled from the spec: `BoundingBox.slices` is the pair of index ranges
`(slice(iymin, iymax), slice(ixmin, ixmax))` (row slice first), usable to
address an array directly when fully in bounds. -/
def BoundingBox.slices (b : BoundingBox) : PySlice × PySlice :=
  ((b.iymin, b.iymax), (b.ixmin, b.ixmax))

/-- `Mask._overlap_slices` (mask.py, lines 72-92), as a function of the mask's
bounding box and the target shape `(H, W)` = `(shape[0], shape[1])`.  Returns
`none` for the source's `return None, None` sentinel, otherwise
`some (slices_large, slices_small)` with each element a `(row, column)` pair
of slices, exactly as built on lines 84-90. -/
def overlapSlices (b : BoundingBox) (H W : Nat) :
    Option ((PySlice × PySlice) × (PySlice × PySlice)) :=
  let xmin := b.ixmin
  let xmax := b.ixmax
  let ymin := b.iymin
  let ymax := b.iymax
  if xmin ≥ (W : Int) ∨ ymin ≥ (H : Int) ∨ xmax ≤ 0 ∨ ymax ≤ 0 then
    none
  else
    some (((max ymin 0, min ymax (H : Int)),
           (max xmin 0, min xmax (W : Int))),
          ((max (-ymin) 0, min (ymax - ymin) ((H : Int) - ymin)),
           (max (-xmin) 0, min (xmax - xmin) ((W : Int) - xmin))))

/-- A dense 2D numpy-style array of rational entries: a height `h`, a width
`w`, and an entry function `val row col`.  Entries at indices outside
`h × w` are irrelevant; array equality is the extensional `Mat.Eqv` below,
matching numpy's notion of equal arrays (same shape, same entries). -/
structure Mat where
  h : Nat
  w : Nat
  val : Nat → Nat → ℚ

/-- Two arrays are equal in numpy's sense: same shape and the same entries at
every in-range index. -/
def Mat.Eqv (A B : Mat) : Prop :=
  A.h = B.h ∧ A.w = B.w ∧ ∀ i, i < A.h → ∀ j, j < A.w → A.val i j = B.val i j

instance (A B : Mat) : Decidable (A.Eqv B) := by
  unfold Mat.Eqv; infer_instance

/-- Normalisation of one slice endpoint against an axis of length `len`,
following Python slice semantics for unit step: a negative endpoint counts
from the end of the axis, and the result is clamped into `[0, len]`. -/
def pyNorm (v : Int) (len : Nat) : Nat :=
  (if v < 0 then max ((len : Int) + v) 0 else min v (len : Int)).toNat

/-- Reading `A[sy, sx]` for slices `sy` (rows) and `sx` (columns): both
endpoints of both slices are normalised against the corresponding axis, and
the result is the selected rectangular block (possibly with zero extent).
Never fails, as in Python. -/
def getSlice (A : Mat) (sy sx : PySlice) : Mat :=
  let ys := pyNorm sy.1 A.h
  let ye := pyNorm sy.2 A.h
  let xs := pyNorm sx.1 A.w
  let xe := pyNorm sx.2 A.w
  ⟨ye - ys, xe - xs, fun i j => A.val (ys + i) (xs + j)⟩

/-- Writing `A[sy, sx] = B` for a 2D right-hand side `B`: the slices are
normalised exactly as for reading, giving a region of shape `(rh, rw)`
inside `A`; numpy broadcasting requires each dimension of `B` to equal the
region's dimension or to equal 1, and raises `ValueError` otherwise.  On
success the region is overwritten with (broadcast) entries of `B` and the
rest of `A` is untouched. -/
def setSlice (A : Mat) (sy sx : PySlice) (B : Mat) : Except String Mat :=
  let ys := pyNorm sy.1 A.h
  let ye := pyNorm sy.2 A.h
  let xs := pyNorm sx.1 A.w
  let xe := pyNorm sx.2 A.w
  let rh := ye - ys
  let rw := xe - xs
  if (B.h = rh ∨ B.h = 1) ∧ (B.w = rw ∨ B.w = 1) then
    Except.ok ⟨A.h, A.w, fun i j =>
      if ys ≤ i ∧ i < ys + rh ∧ xs ≤ j ∧ j < xs + rw then
        B.val (if B.h = 1 then 0 else i - ys) (if B.w = 1 then 0 else j - xs)
      else A.val i j⟩
  else
    Except.error "ValueError"

/-- `np.zeros((h, w))`. -/
def npZeros (h w : Nat) : Mat := ⟨h, w, fun _ _ => 0⟩

/-- `A[:] = q`: fill every entry of `A` with the scalar `q`. -/
def Mat.fillAll (A : Mat) (q : ℚ) : Mat := ⟨A.h, A.w, fun _ _ => q⟩

/-- Elementwise product `A * B` of two arrays of the same shape (the only way
it is used below: `multiply` multiplies a cutout, which always has the mask's
shape, with the mask's data). -/
def Mat.mul (A B : Mat) : Mat := ⟨A.h, A.w, fun i j => A.val i j * B.val i j⟩

/-- A numpy element dtype, as far as the code observes it: floating or
integer. -/
inductive DType where
  | float : DType
  | int : DType
deriving DecidableEq

/-- Casting a scalar into an array of the given dtype (`cutout[:] =
fill_value` on an array allocated with `dtype=data.dtype`): a float dtype
stores the value as is; an integer dtype truncates toward zero, as numpy's
C-style cast does. -/
def castVal (t : DType) (q : ℚ) : ℚ :=
  match t with
  | DType.float => q
  | DType.int => ((Int.tdiv q.num (q.den : Int) : Int) : ℚ)

/-- The `data` argument of `cutout`/`multiply`: a 2D array together with its
element dtype and an optional astropy unit tag (`u.Quantity` carries
`some u`; a plain `ndarray` carries `none`). -/
structure NDData where
  mat : Mat
  dtype : DType
  unit : Option String

/-- `Mask` (mask.py, lines 9-33): a 2D array of fractional-overlap weights
plus a bounding box.  The constructor raises unless `data.shape ==
bbox.shape`, where the bounding box's shape is `(iymax - iymin,
ixmax - ixmin)` as Python integers; a constructed mask therefore always
carries that equality, recorded here as the fields `wf_h` and `wf_w`. -/
structure Mask where
  data : Mat
  bbox : BoundingBox
  wf_h : (data.h : Int) = bbox.iymax - bbox.iymin
  wf_w : (data.w : Int) = bbox.ixmax - bbox.ixmin

/-- `Mask._overlap_slices` proper: the method only reads `self.bbox`. -/
def Mask.overlap_slices (m : Mask) (H W : Nat) :
    Option ((PySlice × PySlice) × (PySlice × PySlice)) :=
  overlapSlices m.bbox H W

/-- The `try` branch of `Mask.to_image` (mask.py, line 116):
`mask[self.bbox.slices] = self.data` on `mask = np.zeros(shape)`; an
exception from the assignment makes the method fall back. -/
def Mask.to_image_fast (m : Mask) (H W : Nat) : Except String Mat :=
  setSlice (npZeros H W) m.bbox.slices.1 m.bbox.slices.2 m.data

/-- The `except ValueError` branch of `Mask.to_image` (mask.py, lines
118-124): compute the overlap slices, return `None` when there is no
overlap, otherwise zero-fill and copy `self.data[slices_small]` into
`mask[slices_large]`. -/
def Mask.to_image_fallback (m : Mask) (H W : Nat) : Except String (Option Mat) :=
  match m.overlap_slices H W with
  | none => Except.ok none
  | some (lg, sm) =>
    match setSlice (npZeros H W) lg.1 lg.2 (getSlice m.data sm.1 sm.2) with
    | Except.ok r => Except.ok (some r)
    | Except.error e => Except.error e

/-- `Mask.to_image` (mask.py, lines 94-126): try the direct placement, and on
`ValueError` fall back to the overlap-slice path.  `Except.ok none` models
the `return None` for no overlap; an uncaught exception is `Except.error`. -/
def Mask.to_image (m : Mask) (H W : Nat) : Except String (Option Mat) :=
  match m.to_image_fast H W with
  | Except.ok r => Except.ok (some r)
  | Except.error _ => m.to_image_fallback H W

/-- The direct slice of `Mask.cutout` (mask.py, line 154):
`cutout = data[self.bbox.slices]`; slicing a `Quantity` keeps its unit and
dtype. -/
def Mask.cutout_fast (m : Mask) (data : NDData) : NDData :=
  ⟨getSlice data.mat m.bbox.slices.1 m.bbox.slices.2, data.dtype, data.unit⟩

/-- The shape-mismatch branch of `Mask.cutout` (mask.py, lines 156-167):
overlap slices against `data.shape`; `None` when there is no overlap;
otherwise `np.zeros(self.shape, dtype=data.dtype)`, filled with
`fill_value` (cast to the dtype), then `cutout[slices_small] =
data[slices_large]`, re-wrapped as a `Quantity` with `data.unit` when the
input was one. -/
def Mask.cutout_fallback (m : Mask) (data : NDData) (fill : ℚ) :
    Except String (Option NDData) :=
  match overlapSlices m.bbox data.mat.h data.mat.w with
  | none => Except.ok none
  | some (lg, sm) =>
    let base := Mat.fillAll (npZeros m.data.h m.data.w) (castVal data.dtype fill)
    match setSlice base sm.1 sm.2 (getSlice data.mat lg.1 lg.2) with
    | Except.ok r => Except.ok (some ⟨r, data.dtype, data.unit⟩)
    | Except.error e => Except.error e

/-- `Mask.cutout` (mask.py, lines 128-169): return the direct slice when its
shape equals the mask's shape, otherwise take the fallback branch. -/
def Mask.cutout (m : Mask) (data : NDData) (fill : ℚ) :
    Except String (Option NDData) :=
  let c := m.cutout_fast data
  if c.mat.h = m.data.h ∧ c.mat.w = m.data.w then Except.ok (some c)
  else m.cutout_fallback data fill

/-- `Mask.multiply` (mask.py, line 198):
`return self.cutout(data, fill_value=fill_value) * self.data`.  When
`cutout` returns `None`, Python evaluates `None * self.data`, which raises
`TypeError`; otherwise the product is elementwise, keeps the cutout's unit,
and is a float array (the mask weights are floats). -/
def Mask.multiply (m : Mask) (data : NDData) (fill : ℚ) : Except String NDData :=
  match m.cutout data fill with
  | Except.error e => Except.error e
  | Except.ok none => Except.error "TypeError"
  | Except.ok (some c) => Except.ok ⟨Mat.mul c.mat m.data, DType.float, c.unit⟩

/-! ### Concrete instances used by the claim theorems and witnesses -/

/-- A 1x1 mask whose bounding box `[5,6) x [0,1)` lies beyond the right edge
of a 3x3 array. -/
def exMaskC1 : Mask := ⟨⟨1, 1, fun _ _ => 2⟩, ⟨5, 6, 0, 1⟩, by decide, by decide⟩

/-- A plain 3x3 float data array with entries `3*row + col`. -/
def exDataC1 : NDData := ⟨⟨3, 3, fun i j => ((i * 3 + j : Nat) : ℚ)⟩, DType.float, none⟩

/-- A 2x2 mask whose bounding box `[-3,-1) x [-3,-1)` lies entirely outside
any array (its `ixmax` and `iymax` are negative). -/
def exMaskC6 : Mask := ⟨⟨2, 2, fun _ _ => 1⟩, ⟨-3, -1, -3, -1⟩, by decide, by decide⟩

/-- A plain 5x5 float data array with entries `5*row + col`. -/
def exDataC6 : NDData := ⟨⟨5, 5, fun i j => ((i * 5 + j : Nat) : ℚ)⟩, DType.float, none⟩

/-- A 1x1 mask of weight 7 whose bounding box `[0,1) x [-3,-2)` lies entirely
below row 0. -/
def exMaskC7 : Mask := ⟨⟨1, 1, fun _ _ => 7⟩, ⟨0, 1, -3, -2⟩, by decide, by decide⟩

/-- A 1x1 mask whose bounding box `[0,1) x [0,1)` sits fully inside a 2x2
array. -/
def exMaskC8 : Mask := ⟨⟨1, 1, fun _ _ => 1⟩, ⟨0, 1, 0, 1⟩, by decide, by decide⟩

/-- A unit-tagged (`Jy`) 2x2 float data array. -/
def exDataC8 : NDData :=
  ⟨⟨2, 2, fun i j => ((i * 2 + j : Nat) : ℚ)⟩, DType.float, some "Jy"⟩

/-- A 2x2 mask partially overlapping the top-left corner of a 3x3 array
(bounding box `[-1,1) x [-1,1)`). -/
def exMaskC10 : Mask := ⟨⟨2, 2, fun _ _ => 1⟩, ⟨-1, 1, -1, 1⟩, by decide, by decide⟩

/-- An integer-dtype 3x3 data array with entries `3*row + col + 1`. -/
def exDataC10 : NDData :=
  ⟨⟨3, 3, fun i j => ((i * 3 + j + 1 : Nat) : ℚ)⟩, DType.int, none⟩

/-- A 2x2 mask with distinct weights whose bounding box `[1,3) x [0,2)` sits
fully inside a 4x4 frame. -/
def exMaskC5 : Mask :=
  ⟨⟨2, 2, fun i j => ((2 * i + j + 1 : Nat) : ℚ)⟩, ⟨1, 3, 0, 2⟩, by decide, by decide⟩

/-- A plain 4x4 float data array with entries `4*row + col`. -/
def exDataC5 : NDData := ⟨⟨4, 4, fun i j => ((i * 4 + j : Nat) : ℚ)⟩, DType.float, none⟩

/-! ### Helper lemmas -/

/-- Normalising an endpoint that is already in range `[0, len]` leaves it
unchanged. -/
theorem pyNorm_of_mem (v : Int) (len : Nat) (h0 : 0 ≤ v) (hl : v ≤ (len : Int)) :
    (pyNorm v len : Int) = v := by
  unfold pyNorm
  rw [if_neg (by omega), min_eq_left hl, Int.toNat_of_nonneg h0]

/-! ### Claim theorems -/

/-- C2 (counterexample): for the bounding box `ixmin=-2, ixmax=3, iymin=-2,
iymax=3` against target shape `(4, 4)`, `_overlap_slices` does NOT return
local-frame ranges `(slice(2,4), slice(2,4))` together with target-frame
ranges `(slice(0,3), slice(0,3))`: the claimed value is refuted at this
concrete input. -/
theorem C2_overlap_example_counterexample :
    overlapSlices ⟨-2, 3, -2, 3⟩ 4 4 ≠
      some (((0, 3), (0, 3)), ((2, 4), (2, 4))) := by decide

/-- C2 (amended): for the bounding box `ixmin=-2, ixmax=3, iymin=-2, iymax=3`
against target shape `(4, 4)`, the overlap-slice computation returns
target-frame ranges `(slice(0,3), slice(0,3))` and local-frame ranges
`(slice(2,5), slice(2,5))` (each of length 3, matching the target ranges). -/
theorem C2_overlap_example_amended :
    overlapSlices ⟨-2, 3, -2, 3⟩ 4 4 =
      some (((0, 3), (0, 3)), ((2, 5), (2, 5))) := by decide

/-- C3: for every bounding box with `ixmax > ixmin` and `iymax > iymin` and
every positive 2D target shape `(H, W)`, `_overlap_slices` returns the
no-overlap sentinel exactly when `ixmin >= W` or `iymin >= H` or
`ixmax <= 0` or `iymax <= 0`; in particular a box with `ixmax = 0` is
no-overlap, while a box with `ixmax = 1` (otherwise overlapping in y) is
classified as overlapping with a 1-wide slice on the x axis. -/
theorem C3_no_overlap_sentinel_iff (b : BoundingBox) (H W : Nat)
    (hH : 0 < H) (hW : 0 < W)
    (hx : b.ixmin < b.ixmax) (hy : b.iymin < b.iymax) :
    (overlapSlices b H W = none ↔
      ((W : Int) ≤ b.ixmin ∨ (H : Int) ≤ b.iymin ∨ b.ixmax ≤ 0 ∨ b.iymax ≤ 0)) ∧
    (b.ixmax = 0 → overlapSlices b H W = none) ∧
    (b.ixmax = 1 → 0 < b.iymax → b.iymin < (H : Int) →
      ∃ lg sm, overlapSlices b H W = some (lg, sm) ∧
        lg.2 = (0, 1) ∧ PySlice.len sm.2 = 1) := by
  simp only [overlapSlices]
  by_cases hc : b.ixmin ≥ (W : Int) ∨ b.iymin ≥ (H : Int) ∨ b.ixmax ≤ 0 ∨ b.iymax ≤ 0
  · rw [if_pos hc]
    refine ⟨⟨fun _ => hc, fun _ => rfl⟩, fun _ => rfl, ?_⟩
    intro h1 h2 h3
    omega
  · rw [if_neg hc]
    refine ⟨⟨fun h => absurd h (by simp), fun h => absurd h hc⟩, ?_, ?_⟩
    · intro h
      omega
    intro h1 h2 h3
    refine ⟨_, _, rfl, ?_, ?_⟩
    · have : max b.ixmin 0 = 0 := by omega
      rw [this, h1]
      have : min (1 : Int) (W : Int) = 1 := by omega
      rw [this]
    · simp only [PySlice.len, h1]
      omega

/-- C4: whenever `_overlap_slices` reports an overlap, on each axis the
local-frame range has the same length as the corresponding target-frame
range. -/
theorem C4_slice_lengths_agree (b : BoundingBox) (H W : Nat) :
    ∀ lg sm, overlapSlices b H W = some (lg, sm) →
      PySlice.len lg.1 = PySlice.len sm.1 ∧ PySlice.len lg.2 = PySlice.len sm.2 := by
  simp only [overlapSlices]
  split
  · intro lg sm h
    cases h
  · intro lg sm h
    injection h with h
    rw [Prod.mk.injEq] at h
    obtain ⟨h1, h2⟩ := h
    subst h1
    subst h2
    simp only [PySlice.len]
    constructor <;> omega

/-- C9: for every bounding box satisfying the invariant and every positive 2D
target shape, whenever `_overlap_slices` reports an overlap both returned
per-axis ranges are nonempty and in bounds: the target-frame ranges lie
within `[0,H) x [0,W)` and the local-frame ranges lie within the mask
array's extents `(iymax - iymin) x (ixmax - ixmin)`. -/
theorem C9_overlap_slices_in_bounds (b : BoundingBox) (H W : Nat)
    (hH : 0 < H) (hW : 0 < W)
    (hx : b.ixmin < b.ixmax) (hy : b.iymin < b.iymax) :
    ∀ lg sm, overlapSlices b H W = some (lg, sm) →
      (0 ≤ lg.1.1 ∧ lg.1.1 < lg.1.2 ∧ lg.1.2 ≤ (H : Int)) ∧
      (0 ≤ lg.2.1 ∧ lg.2.1 < lg.2.2 ∧ lg.2.2 ≤ (W : Int)) ∧
      (0 ≤ sm.1.1 ∧ sm.1.1 < sm.1.2 ∧ sm.1.2 ≤ b.iymax - b.iymin) ∧
      (0 ≤ sm.2.1 ∧ sm.2.1 < sm.2.2 ∧ sm.2.2 ≤ b.ixmax - b.ixmin) := by
  simp only [overlapSlices]
  split
  · intro lg sm h
    cases h
  · intro lg sm h
    injection h with h
    rw [Prod.mk.injEq] at h
    obtain ⟨h1, h2⟩ := h
    subst h1
    subst h2
    rename_i hc
    push_neg at hc
    refine ⟨⟨?_, ?_, ?_⟩, ⟨?_, ?_, ?_⟩, ⟨?_, ?_, ?_⟩, ⟨?_, ?_, ?_⟩⟩ <;>
      simp only [] <;> omega

/-- Witness for C3 at box `ixmin=-1, ixmax=1, iymin=-1, iymax=2` and target
shape `(3, 3)`. -/
theorem C3_no_overlap_sentinel_iff_witness :
    (0 < 3 ∧ 0 < 3 ∧ (-1 : Int) < 1 ∧ (-1 : Int) < 2) ∧
    ((overlapSlices ⟨-1, 1, -1, 2⟩ 3 3 = none ↔
        (((3 : Nat) : Int) ≤ -1 ∨ ((3 : Nat) : Int) ≤ -1 ∨
          (1 : Int) ≤ 0 ∨ (2 : Int) ≤ 0)) ∧
      ((1 : Int) = 0 → overlapSlices ⟨-1, 1, -1, 2⟩ 3 3 = none) ∧
      ((1 : Int) = 1 → (0 : Int) < 2 → (-1 : Int) < ((3 : Nat) : Int) →
        ∃ lg sm, overlapSlices ⟨-1, 1, -1, 2⟩ 3 3 = some (lg, sm) ∧
          lg.2 = (0, 1) ∧ PySlice.len sm.2 = 1)) :=
  ⟨⟨by decide, by decide, by decide, by decide⟩,
    C3_no_overlap_sentinel_iff ⟨-1, 1, -1, 2⟩ 3 3 (by decide) (by decide)
      (by decide) (by decide)⟩

/-- Witness for C4 at box `ixmin=-2, ixmax=3, iymin=-2, iymax=3` and target
shape `(4, 4)`: the computed ranges have matching lengths on both axes. -/
theorem C4_slice_lengths_agree_witness :
    overlapSlices ⟨-2, 3, -2, 3⟩ 4 4 =
      some (((0, 3), (0, 3)), ((2, 5), (2, 5))) ∧
    (PySlice.len (0, 3) = PySlice.len (2, 5) ∧
      PySlice.len (0, 3) = PySlice.len (2, 5)) :=
  ⟨by decide,
    C4_slice_lengths_agree ⟨-2, 3, -2, 3⟩ 4 4 ((0, 3), (0, 3)) ((2, 5), (2, 5))
      (by decide)⟩

/-- Witness for C9 at box `ixmin=-2, ixmax=3, iymin=-2, iymax=3` and target
shape `(4, 4)`: both returned ranges are nonempty and in bounds. -/
theorem C9_overlap_slices_in_bounds_witness :
    (0 < 4 ∧ 0 < 4 ∧ (-2 : Int) < 3 ∧ (-2 : Int) < 3 ∧
      overlapSlices ⟨-2, 3, -2, 3⟩ 4 4 =
        some (((0, 3), (0, 3)), ((2, 5), (2, 5)))) ∧
    (((0 : Int) ≤ 0 ∧ (0 : Int) < 3 ∧ (3 : Int) ≤ ((4 : Nat) : Int)) ∧
      ((0 : Int) ≤ 0 ∧ (0 : Int) < 3 ∧ (3 : Int) ≤ ((4 : Nat) : Int)) ∧
      ((0 : Int) ≤ 2 ∧ (2 : Int) < 5 ∧ (5 : Int) ≤ 3 - (-2)) ∧
      ((0 : Int) ≤ 2 ∧ (2 : Int) < 5 ∧ (5 : Int) ≤ 3 - (-2))) :=
  ⟨⟨by decide, by decide, by decide, by decide, by decide⟩,
    C9_overlap_slices_in_bounds ⟨-2, 3, -2, 3⟩ 4 4 (by decide) (by decide)
      (by decide) (by decide) ((0, 3), (0, 3)) ((2, 5), (2, 5)) (by decide)⟩

/-- C1: for the 1x1 mask at bounding box `[5,6) x [0,1)` and a 3x3 data
array (no overlap by the four-inequality test, as the first conjunct
records), `cutout` returns the no-overlap signal `None`, but `multiply`
then evaluates `None * self.data`, which raises `TypeError` instead of
returning the no-overlap signal. -/
theorem C1_multiply_no_overlap_raises :
    overlapSlices exMaskC1.bbox 3 3 = none ∧
    exMaskC1.cutout exDataC1 0 = Except.ok none ∧
    exMaskC1.multiply exDataC1 0 = Except.error "TypeError" :=
  ⟨by decide, rfl, rfl⟩

/-- C6: for the 2x2 mask at bounding box `[-3,-1) x [-3,-1)` — entirely
outside the 5x5 data array per the four-inequality test (first conjunct) —
`cutout(data, fill_value=9)` does not return the no-overlap signal: the
direct slice `data[self.bbox.slices]` wraps the negative indices around to
rows/columns 2..3, happens to have the mask's 2x2 shape, and is returned
as-is (its entry (0,0) is `data[2,2] = 12`, not the fill value 9). -/
theorem C6_no_overlap_wraparound_returns_array :
    overlapSlices exMaskC6.bbox 5 5 = none ∧
    ∃ c, exMaskC6.cutout exDataC6 9 = Except.ok (some c) ∧
      c.mat.h = 2 ∧ c.mat.w = 2 ∧ c.mat.val 0 0 = 12 ∧ c.mat.val 0 0 ≠ 9 :=
  ⟨by decide, _, rfl, rfl, rfl, by decide, by decide⟩

/-- C7: for the 1x1 mask of weight 7 at bounding box `[0,1) x [-3,-2)` —
entirely outside any target per the four-inequality test (first conjunct) —
`to_image((4,4))` returns an array rather than the no-overlap signal, and
the mask weight lands at the wrapped position (row 1), not at the (empty)
clipped bounding-box location: the returned array is not zero everywhere. -/
theorem C7_to_image_wraparound_misplaces_weight :
    overlapSlices exMaskC7.bbox 4 4 = none ∧
    ∃ A, exMaskC7.to_image 4 4 = Except.ok (some A) ∧
      A.h = 4 ∧ A.w = 4 ∧ A.val 1 0 = 7 :=
  ⟨by decide, _, rfl, rfl, rfl, by decide⟩

/-- C8: whenever `cutout` returns an array (either via the full-overlap fast
path or via the partial-overlap fallback), the returned array carries the
same unit tag as the input data. -/
theorem C8_cutout_preserves_unit (m : Mask) (data : NDData) (fill : ℚ)
    (out : NDData) (h : m.cutout data fill = Except.ok (some out)) :
    out.unit = data.unit := by
  simp only [Mask.cutout] at h
  split at h
  · injection h with h
    injection h with h
    rw [← h]
    rfl
  · simp only [Mask.cutout_fallback] at h
    split at h
    · simp at h
    · split at h
      · injection h with h
        injection h with h
        rw [← h]
      · simp at h

/-- Witness for C8: the 1x1 mask at `[0,1) x [0,1)` over the `Jy`-tagged 2x2
data takes the fast path and the returned cutout keeps the tag. -/
theorem C8_cutout_preserves_unit_witness :
    exMaskC8.cutout exDataC8 0 = Except.ok (some (exMaskC8.cutout_fast exDataC8)) ∧
    (exMaskC8.cutout_fast exDataC8).unit = exDataC8.unit :=
  ⟨rfl, C8_cutout_preserves_unit exMaskC8 exDataC8 0 (exMaskC8.cutout_fast exDataC8) rfl⟩

/-- C10: in the partial-overlap fallback of `cutout` the output array is
allocated with the input data's dtype and the fill value is cast to it: with
integer-dtype data and `fill_value = 1/2`, the cast truncates to 0, so the
pixel outside the data's extent holds 0 (not 1/2), while the overlapped
pixel holds the data value. -/
theorem C10_int_dtype_fill_truncated :
    castVal DType.int (mkRat 1 2) = 0 ∧ mkRat 1 2 ≠ (0 : ℚ) ∧
    ∃ c, exMaskC10.cutout exDataC10 (mkRat 1 2) = Except.ok (some c) ∧
      c.dtype = exDataC10.dtype ∧ c.mat.val 0 0 = 0 ∧
      c.mat.val 1 1 = exDataC10.mat.val 0 0 :=
  ⟨by decide, by decide, _, rfl, rfl, by decide, by decide⟩

/-- Normalising an endpoint in range `[0, len]` gives its `toNat`. -/
theorem pyNorm_eq_toNat (v : Int) (len : Nat) (h0 : 0 ≤ v) (hl : v ≤ (len : Int)) :
    pyNorm v len = v.toNat := by
  unfold pyNorm
  rw [if_neg (by omega), min_eq_left hl]

/-- Reading a slice whose endpoints are in range and ordered selects exactly
the corresponding block. -/
theorem getSlice_exact (A : Mat) (y1 y2 x1 x2 : Int)
    (hy0 : 0 ≤ y1) (hy1 : y1 ≤ y2) (hy2 : y2 ≤ (A.h : Int))
    (hx0 : 0 ≤ x1) (hx1 : x1 ≤ x2) (hx2 : x2 ≤ (A.w : Int)) :
    getSlice A (y1, y2) (x1, x2) =
      ⟨(y2 - y1).toNat, (x2 - x1).toNat,
        fun i j => A.val (y1.toNat + i) (x1.toNat + j)⟩ := by
  simp only [getSlice]
  rw [pyNorm_eq_toNat y1 A.h hy0 (by omega),
      pyNorm_eq_toNat y2 A.h (by omega) hy2,
      pyNorm_eq_toNat x1 A.w hx0 (by omega),
      pyNorm_eq_toNat x2 A.w (by omega) hx2]
  have e1 : y2.toNat - y1.toNat = (y2 - y1).toNat := by omega
  have e2 : x2.toNat - x1.toNat = (x2 - x1).toNat := by omega
  rw [e1, e2]

/-- Writing a block whose shape exactly matches an in-range, ordered region
succeeds and overwrites exactly that region. -/
theorem setSlice_exact (A B : Mat) (y1 y2 x1 x2 : Int)
    (hy0 : 0 ≤ y1) (hy1 : y1 ≤ y2) (hy2 : y2 ≤ (A.h : Int))
    (hx0 : 0 ≤ x1) (hx1 : x1 ≤ x2) (hx2 : x2 ≤ (A.w : Int))
    (hBh : (B.h : Int) = y2 - y1) (hBw : (B.w : Int) = x2 - x1) :
    setSlice A (y1, y2) (x1, x2) B = Except.ok ⟨A.h, A.w, fun i j =>
      if y1 ≤ (i : Int) ∧ (i : Int) < y2 ∧ x1 ≤ (j : Int) ∧ (j : Int) < x2
      then B.val (i - y1.toNat) (j - x1.toNat)
      else A.val i j⟩ := by
  simp only [setSlice]
  rw [pyNorm_eq_toNat y1 A.h hy0 (by omega),
      pyNorm_eq_toNat y2 A.h (by omega) hy2,
      pyNorm_eq_toNat x1 A.w hx0 (by omega),
      pyNorm_eq_toNat x2 A.w (by omega) hx2]
  rw [if_pos (⟨Or.inl (by omega), Or.inl (by omega)⟩ :
    (B.h = y2.toNat - y1.toNat ∨ B.h = 1) ∧
      (B.w = x2.toNat - x1.toNat ∨ B.w = 1))]
  refine congrArg Except.ok (congrArg (Mat.mk A.h A.w) ?_)
  funext i j
  by_cases hin : y1 ≤ (i : Int) ∧ (i : Int) < y2 ∧ x1 ≤ (j : Int) ∧ (j : Int) < x2
  · rw [if_pos (by omega :
      y1.toNat ≤ i ∧ i < y1.toNat + (y2.toNat - y1.toNat) ∧
        x1.toNat ≤ j ∧ j < x1.toNat + (x2.toNat - x1.toNat)), if_pos hin]
    have eh : (if B.h = 1 then 0 else i - y1.toNat) = i - y1.toNat := by
      split
      · omega
      · rfl
    have ew : (if B.w = 1 then 0 else j - x1.toNat) = j - x1.toNat := by
      split
      · omega
      · rfl
    rw [eh, ew]
  · rw [if_neg (by omega :
      ¬(y1.toNat ≤ i ∧ i < y1.toNat + (y2.toNat - y1.toNat) ∧
        x1.toNat ≤ j ∧ j < x1.toNat + (x2.toNat - x1.toNat))), if_neg hin]

/-- Reduction of `to_image`'s fallback branch once the overlap slices and the
inner assignment are known. -/
theorem to_image_fallback_eq (m : Mask) (H W : Nat) (l1 l2 s1 s2 : PySlice)
    (hov : overlapSlices m.bbox H W = some ((l1, l2), (s1, s2)))
    (R : Mat)
    (hset : setSlice (npZeros H W) l1 l2 (getSlice m.data s1 s2) = Except.ok R) :
    m.to_image_fallback H W = Except.ok (some R) := by
  simp only [Mask.to_image_fallback, Mask.overlap_slices, hov, hset]

/-- Reduction of `cutout`'s fallback branch once the overlap slices and the
inner assignment are known. -/
theorem cutout_fallback_eq (m : Mask) (data : NDData) (fill : ℚ)
    (l1 l2 s1 s2 : PySlice)
    (hov : overlapSlices m.bbox data.mat.h data.mat.w = some ((l1, l2), (s1, s2)))
    (R : Mat)
    (hset : setSlice (Mat.fillAll (npZeros m.data.h m.data.w) (castVal data.dtype fill))
        s1 s2 (getSlice data.mat l1 l2) = Except.ok R) :
    m.cutout_fallback data fill = Except.ok (some ⟨R, data.dtype, data.unit⟩) := by
  simp only [Mask.cutout_fallback, hov, hset]

/-- C5: for every mask whose bounding box lies fully inside the target shape
(for `to_image`) and fully inside the data's extents (for `cutout`), the
fast path (direct placement/slice via the bounding box's own ranges) and the
fallback path (zero-fill/fill then copy via the computed overlap ranges)
produce identical arrays. -/
theorem C5_fast_and_fallback_paths_agree (m : Mask) (H W : Nat)
    (data : NDData) (fill : ℚ)
    (h1 : 0 ≤ m.bbox.ixmin) (h2 : m.bbox.ixmax ≤ (W : Int))
    (h3 : 0 ≤ m.bbox.iymin) (h4 : m.bbox.iymax ≤ (H : Int))
    (h5 : m.bbox.ixmax ≤ (data.mat.w : Int))
    (h6 : m.bbox.iymax ≤ (data.mat.h : Int))
    (h7 : m.bbox.ixmin < m.bbox.ixmax) (h8 : m.bbox.iymin < m.bbox.iymax) :
    (∃ A B, m.to_image_fast H W = Except.ok A ∧
      m.to_image_fallback H W = Except.ok (some B) ∧ A.Eqv B) ∧
    (∃ c, m.cutout_fallback data fill = Except.ok (some c) ∧
      (m.cutout_fast data).mat.Eqv c.mat) := by
  have wfh := m.wf_h
  have wfw := m.wf_w
  constructor
  · have hov : overlapSlices m.bbox H W =
        some (((m.bbox.iymin, m.bbox.iymax), (m.bbox.ixmin, m.bbox.ixmax)),
              ((0, m.bbox.iymax - m.bbox.iymin),
               (0, m.bbox.ixmax - m.bbox.ixmin))) := by
      simp only [overlapSlices]
      rw [if_neg (by omega)]
      rw [max_eq_left h3, min_eq_left h4, max_eq_left h1, min_eq_left h2,
          max_eq_right (by omega : -m.bbox.iymin ≤ (0 : Int)),
          min_eq_left (by omega :
            m.bbox.iymax - m.bbox.iymin ≤ (H : Int) - m.bbox.iymin),
          max_eq_right (by omega : -m.bbox.ixmin ≤ (0 : Int)),
          min_eq_left (by omega :
            m.bbox.ixmax - m.bbox.ixmin ≤ (W : Int) - m.bbox.ixmin)]
    have hA : m.to_image_fast H W = Except.ok
        ⟨H, W, fun i j =>
          if m.bbox.iymin ≤ (i : Int) ∧ (i : Int) < m.bbox.iymax ∧
              m.bbox.ixmin ≤ (j : Int) ∧ (j : Int) < m.bbox.ixmax then
            m.data.val (i - m.bbox.iymin.toNat) (j - m.bbox.ixmin.toNat)
          else 0⟩ :=
      setSlice_exact (npZeros H W) m.data m.bbox.iymin m.bbox.iymax
        m.bbox.ixmin m.bbox.ixmax h3 (le_of_lt h8) h4 h1 (le_of_lt h7) h2 wfh wfw
    have hget : getSlice m.data (0, m.bbox.iymax - m.bbox.iymin)
        (0, m.bbox.ixmax - m.bbox.ixmin) =
        ⟨(m.bbox.iymax - m.bbox.iymin - 0).toNat,
         (m.bbox.ixmax - m.bbox.ixmin - 0).toNat,
         fun i j => m.data.val ((0 : Int).toNat + i) ((0 : Int).toNat + j)⟩ :=
      getSlice_exact m.data 0 (m.bbox.iymax - m.bbox.iymin)
        0 (m.bbox.ixmax - m.bbox.ixmin) (le_refl 0) (by omega) (by omega)
        (le_refl 0) (by omega) (by omega)
    have hset : setSlice (npZeros H W) (m.bbox.iymin, m.bbox.iymax)
        (m.bbox.ixmin, m.bbox.ixmax)
        ⟨(m.bbox.iymax - m.bbox.iymin - 0).toNat,
         (m.bbox.ixmax - m.bbox.ixmin - 0).toNat,
         fun i j => m.data.val ((0 : Int).toNat + i) ((0 : Int).toNat + j)⟩ =
        Except.ok ⟨H, W, fun i j =>
          if m.bbox.iymin ≤ (i : Int) ∧ (i : Int) < m.bbox.iymax ∧
              m.bbox.ixmin ≤ (j : Int) ∧ (j : Int) < m.bbox.ixmax then
            m.data.val ((0 : Int).toNat + (i - m.bbox.iymin.toNat))
              ((0 : Int).toNat + (j - m.bbox.ixmin.toNat))
          else 0⟩ :=
      setSlice_exact (npZeros H W) _ m.bbox.iymin m.bbox.iymax
        m.bbox.ixmin m.bbox.ixmax h3 (le_of_lt h8) h4 h1 (le_of_lt h7) h2
        (by show ((m.bbox.iymax - m.bbox.iymin - 0).toNat : Int) =
              m.bbox.iymax - m.bbox.iymin
            omega)
        (by show ((m.bbox.ixmax - m.bbox.ixmin - 0).toNat : Int) =
              m.bbox.ixmax - m.bbox.ixmin
            omega)
    have hfb := to_image_fallback_eq m H W
      (m.bbox.iymin, m.bbox.iymax) (m.bbox.ixmin, m.bbox.ixmax)
      (0, m.bbox.iymax - m.bbox.iymin) (0, m.bbox.ixmax - m.bbox.ixmin) hov _
      (hget ▸ hset)
    refine ⟨_, _, hA, hfb, rfl, rfl, ?_⟩
    intro i hi j hj
    simp only [Int.toNat_zero, Nat.zero_add]
  · have hovd : overlapSlices m.bbox data.mat.h data.mat.w =
        some (((m.bbox.iymin, m.bbox.iymax), (m.bbox.ixmin, m.bbox.ixmax)),
              ((0, m.bbox.iymax - m.bbox.iymin),
               (0, m.bbox.ixmax - m.bbox.ixmin))) := by
      simp only [overlapSlices]
      rw [if_neg (by omega)]
      rw [max_eq_left h3, min_eq_left h6, max_eq_left h1, min_eq_left h5,
          max_eq_right (by omega : -m.bbox.iymin ≤ (0 : Int)),
          min_eq_left (by omega :
            m.bbox.iymax - m.bbox.iymin ≤ (data.mat.h : Int) - m.bbox.iymin),
          max_eq_right (by omega : -m.bbox.ixmin ≤ (0 : Int)),
          min_eq_left (by omega :
            m.bbox.ixmax - m.bbox.ixmin ≤ (data.mat.w : Int) - m.bbox.ixmin)]
    have hgetd : getSlice data.mat (m.bbox.iymin, m.bbox.iymax)
        (m.bbox.ixmin, m.bbox.ixmax) =
        ⟨(m.bbox.iymax - m.bbox.iymin).toNat, (m.bbox.ixmax - m.bbox.ixmin).toNat,
         fun i j => data.mat.val (m.bbox.iymin.toNat + i) (m.bbox.ixmin.toNat + j)⟩ :=
      getSlice_exact data.mat m.bbox.iymin m.bbox.iymax m.bbox.ixmin m.bbox.ixmax
        h3 (le_of_lt h8) h6 h1 (le_of_lt h7) h5
    have hsetd : setSlice
        (Mat.fillAll (npZeros m.data.h m.data.w) (castVal data.dtype fill))
        (0, m.bbox.iymax - m.bbox.iymin) (0, m.bbox.ixmax - m.bbox.ixmin)
        ⟨(m.bbox.iymax - m.bbox.iymin).toNat, (m.bbox.ixmax - m.bbox.ixmin).toNat,
         fun i j => data.mat.val (m.bbox.iymin.toNat + i) (m.bbox.ixmin.toNat + j)⟩ =
        Except.ok ⟨m.data.h, m.data.w, fun i j =>
          if (0 : Int) ≤ (i : Int) ∧ (i : Int) < m.bbox.iymax - m.bbox.iymin ∧
              (0 : Int) ≤ (j : Int) ∧ (j : Int) < m.bbox.ixmax - m.bbox.ixmin then
            data.mat.val (m.bbox.iymin.toNat + (i - (0 : Int).toNat))
              (m.bbox.ixmin.toNat + (j - (0 : Int).toNat))
          else castVal data.dtype fill⟩ :=
      setSlice_exact _ _ 0 (m.bbox.iymax - m.bbox.iymin)
        0 (m.bbox.ixmax - m.bbox.ixmin) (le_refl 0) (by omega)
        (by show m.bbox.iymax - m.bbox.iymin ≤ (m.data.h : Int)
            omega)
        (le_refl 0) (by omega)
        (by show m.bbox.ixmax - m.bbox.ixmin ≤ (m.data.w : Int)
            omega)
        (by show (((m.bbox.iymax - m.bbox.iymin).toNat : Int)) =
              m.bbox.iymax - m.bbox.iymin - 0
            omega)
        (by show (((m.bbox.ixmax - m.bbox.ixmin).toNat : Int)) =
              m.bbox.ixmax - m.bbox.ixmin - 0
            omega)
    have hfbd := cutout_fallback_eq m data fill
      (m.bbox.iymin, m.bbox.iymax) (m.bbox.ixmin, m.bbox.ixmax)
      (0, m.bbox.iymax - m.bbox.iymin) (0, m.bbox.ixmax - m.bbox.ixmin) hovd _
      (hgetd ▸ hsetd)
    refine ⟨_, hfbd, ?_⟩
    rw [show (m.cutout_fast data).mat =
        ⟨(m.bbox.iymax - m.bbox.iymin).toNat, (m.bbox.ixmax - m.bbox.ixmin).toNat,
         fun i j => data.mat.val (m.bbox.iymin.toNat + i) (m.bbox.ixmin.toNat + j)⟩
      from hgetd]
    refine ⟨by show (m.bbox.iymax - m.bbox.iymin).toNat = m.data.h; omega,
      by show (m.bbox.ixmax - m.bbox.ixmin).toNat = m.data.w; omega, ?_⟩
    intro i hi j hj
    have hi2 : i < (m.bbox.iymax - m.bbox.iymin).toNat := hi
    have hj2 : j < (m.bbox.ixmax - m.bbox.ixmin).toNat := hj
    show data.mat.val (m.bbox.iymin.toNat + i) (m.bbox.ixmin.toNat + j) =
      if (0 : Int) ≤ (i : Int) ∧ (i : Int) < m.bbox.iymax - m.bbox.iymin ∧
          (0 : Int) ≤ (j : Int) ∧ (j : Int) < m.bbox.ixmax - m.bbox.ixmin then
        data.mat.val (m.bbox.iymin.toNat + (i - (0 : Int).toNat))
          (m.bbox.ixmin.toNat + (j - (0 : Int).toNat))
      else castVal data.dtype fill
    rw [if_pos (by omega :
      (0 : Int) ≤ (i : Int) ∧ (i : Int) < m.bbox.iymax - m.bbox.iymin ∧
        (0 : Int) ≤ (j : Int) ∧ (j : Int) < m.bbox.ixmax - m.bbox.ixmin)]
    simp only [Int.toNat_zero, Nat.sub_zero]

/-- Witness for C5: the 2x2 mask at bounding box `[1,3) x [0,2)` sits fully
inside the 4x4 target and the 4x4 data, and both operations' two paths
agree there. -/
theorem C5_fast_and_fallback_paths_agree_witness :
    ((0 : Int) ≤ 1 ∧ (3 : Int) ≤ ((4 : Nat) : Int) ∧ (0 : Int) ≤ 0 ∧
      (2 : Int) ≤ ((4 : Nat) : Int) ∧ (3 : Int) ≤ (exDataC5.mat.w : Int) ∧
      (2 : Int) ≤ (exDataC5.mat.h : Int) ∧ (1 : Int) < 3 ∧ (0 : Int) < 2) ∧
    ((∃ A B, exMaskC5.to_image_fast 4 4 = Except.ok A ∧
        exMaskC5.to_image_fallback 4 4 = Except.ok (some B) ∧ A.Eqv B) ∧
      (∃ c, exMaskC5.cutout_fallback exDataC5 0 = Except.ok (some c) ∧
        (exMaskC5.cutout_fast exDataC5).mat.Eqv c.mat)) :=
  ⟨⟨by decide, by decide, by decide, by decide, by decide, by decide,
      by decide, by decide⟩,
    C5_fast_and_fallback_paths_agree exMaskC5 4 4 exDataC5 0 (by decide)
      (by decide) (by decide) (by decide) (by decide) (by decide) (by decide)
      (by decide)⟩
